import Mathlib

/-!
Verification development for the ai-radar durable task-queue orchestration
layer.  Each definition is a shallow embedding of a function of the Python
source; the file reference and line numbers are given in the doc comment of
every definition.
-/

namespace AIRadar

/-! ### Character-list string helpers

Structural (kernel-reducible) counterparts of the Python string operations
used by the source: `str.startswith`, `str.endswith`, `str.replace` (replace
all non-overlapping occurrences, left to right), `str.lower`, `str.split`
on a one-character separator, and `in` (character containment).
-/

/-- Python `s.startswith(p)`. -/
def strHasPre (p s : String) : Bool := p.data.isPrefixOf s.data

/-- Python `s.endswith(p)`. -/
def strHasSuf (p s : String) : Bool := p.data.isSuffixOf s.data

/-- Fuel-indexed worker for `strReplace`; replaces every non-overlapping
occurrence of `pat` (nonempty) left to right, as Python `str.replace` does. -/
def replCharsAux (pat rep : List Char) : Nat → List Char → List Char
  | _, [] => []
  | 0, l => l
  | fuel + 1, c :: rest =>
    if pat.isPrefixOf (c :: rest) then
      rep ++ replCharsAux pat rep fuel ((c :: rest).drop pat.length)
    else
      c :: replCharsAux pat rep fuel rest

/-- Python `s.replace(pat, rep)`. -/
def strReplace (s pat rep : String) : String :=
  if pat.data.isEmpty then s
  else ⟨replCharsAux pat.data rep.data s.data.length s.data⟩

/-- Python `s.lower()` (ASCII, which is all the source uses). -/
def strLower (s : String) : String := ⟨s.data.map Char.toLower⟩

/-- Worker for `strSplit`. -/
def splitCharsAux (sep : Char) : List Char → List Char → List (List Char)
  | [], acc => [acc.reverse]
  | c :: rest, acc =>
    if c == sep then acc.reverse :: splitCharsAux sep rest []
    else splitCharsAux sep rest (c :: acc)

/-- Python `s.split(sep)` for a one-character separator. -/
def strSplit (s : String) (sep : Char) : List String :=
  (splitCharsAux sep s.data []).map (fun l => ⟨l⟩)

/-- Python `c in s` for a single character. -/
def strHasChar (s : String) (c : Char) : Bool := s.data.contains c

/-! ### SecretsManager (src/_core/secrets.py)

`SecretsManager.get_secret` (lines 147-227) resolves a secret name through
tiers: process-local cache, Vault (via a naming-convention route, skipped
entirely for the name `MINIO_ENDPOINT`), environment variable, `<name>_FILE`
environment indirection, Docker-Compose secret file, caller default.

The external world (Vault contents, environment, files) is modelled as a
record of pure lookup functions; exceptions while reading a source are
modelled by the lookup returning `none` (the code swallows them and falls
through).  File contents are modelled post-processing (BOM-stripped and
`strip()`ed, as the code does on every read).  `probes` counts the external
lookups performed by one call, so that a cache hit can be shown to perform
none.
-/

/-- External sources visible to `SecretsManager`. -/
structure SecretsWorld where
  /-- Vault KV lookup: `path → key → value` (lines 103-145; `none` models
  a missing secret, an unreachable Vault or a missing Vault client). -/
  vault : String → String → Option String
  /-- Environment variables (`os.getenv`). -/
  envVar : String → Option String
  /-- Contents of the file at a path, already decoded and stripped
  (`none` models a missing or unreadable file). -/
  fileAt : String → Option String
  /-- Docker-Compose secret contents by (lowercased) secret name, already
  decoded and stripped (`_read_compose_secret`, lines 83-101). -/
  composeAt : String → Option String

/-- The Vault `(path, key)` route for a secret name, from the pattern
cascade of `get_secret` (lines 174-196).  `none` means no pattern applies
and the Vault tier is not attempted. -/
def vaultRoute (name : String) : Option (String × String) :=
  if strHasPre "POSTGRES_" name || strHasPre "DB_" name then
    some ("database", strLower (strReplace (strReplace name "POSTGRES_" "") "DB_" ""))
  else if strHasPre "NATS_" name then
    some ("nats", strLower (strReplace name "NATS_" ""))
  else if strHasPre "MINIO_" name then
    some ("minio", strLower (strReplace name "MINIO_" ""))
  else if strHasSuf "_KEY" name || strHasSuf "_API_KEY" name || strHasSuf "_TOKEN" name then
    some ("api-keys",
      strReplace (strReplace (strReplace (strLower name) "_api_key" "") "_key" "") "_token" "")
  else if strHasChar name '_' then
    match strSplit (strLower name) '_' with
    | [] => none
    | [_] => none
    | p :: rest => some (p, String.intercalate "_" rest)
  else none

/-- Result of one `get_secret` call: the value returned, the cache after
the call, and the number of external probes (Vault reads, environment
reads, file reads) performed. -/
structure GetOut where
  value : Option String
  cache : List (String × String)
  probes : Nat
  deriving DecidableEq

/-- Cache lookup (`name in self.secrets_cache`). -/
def lookupCache (cache : List (String × String)) (name : String) : Option String :=
  (cache.find? (fun p => p.1 == name)).map (fun p => p.2)

/-- The Vault tier of `get_secret` (lines 167-200): skipped for
`MINIO_ENDPOINT`, otherwise attempted when a route pattern applies. -/
def vaultTier (w : SecretsWorld) (name : String) : Option String :=
  if name == "MINIO_ENDPOINT" then none
  else
    match vaultRoute name with
    | some pk => w.vault pk.1 pk.2
    | none => none

/-- Number of external probes the Vault tier performs. -/
def vaultTierProbes (name : String) : Nat :=
  if name == "MINIO_ENDPOINT" then 0
  else if (vaultRoute name).isSome then 1 else 0

/-- The `<name>_FILE` environment-indirection tier (lines 208-218): the
`<name>_FILE` variable must be set and non-empty (Python truthiness) and
the file it names must be readable. -/
def envFileTier (w : SecretsWorld) (name : String) : Option String :=
  match w.envVar (name ++ "_FILE") with
  | some p => if p == "" then none else w.fileAt p
  | none => none

/-- `SecretsManager.get_secret(name, default)` (lines 147-227), threading
the cache and counting external probes.  Every tier that succeeds stores
its value in the cache before returning; the default is returned uncached. -/
def getSecret (w : SecretsWorld) (cache : List (String × String))
    (name : String) (dflt : Option String) : GetOut :=
  match lookupCache cache name with
  | some v => ⟨some v, cache, 0⟩
  | none =>
    let vp := vaultTierProbes name
    match vaultTier w name with
    | some v => ⟨some v, (name, v) :: cache, vp⟩
    | none =>
      match w.envVar name with
      | some v => ⟨some v, (name, v) :: cache, vp + 1⟩
      | none =>
        match envFileTier w name with
        | some v => ⟨some v, (name, v) :: cache, vp + 3⟩
        | none =>
          match w.composeAt (strLower name) with
          | some v => ⟨some v, (name, v) :: cache, vp + 4⟩
          | none => ⟨dflt, cache, vp + 4⟩

/-- The non-cache resolution tiers in the priority order of `get_secret`:
Vault (with the `MINIO_ENDPOINT` skip), environment variable, `<name>_FILE`
indirection, mounted compose-secret file. -/
def tierValues (w : SecretsWorld) (name : String) : List (Option String) :=
  [vaultTier w name, w.envVar name, envFileTier w name, w.composeAt (strLower name)]

/-- First successful entry of a tier list. -/
def firstSuccess : List (Option String) → Option String
  | [] => none
  | some v :: _ => some v
  | none :: rest => firstSuccess rest

/-- A world where Vault holds a value for `MINIO_ENDPOINT`'s route and the
environment holds a different value for the same name. -/
def c7World : SecretsWorld where
  vault := fun p k =>
    if p == "minio" && k == "endpoint" then some "http://vault-minio:9000" else none
  envVar := fun n => if n == "MINIO_ENDPOINT" then some "http://env-minio:9000" else none
  fileAt := fun _ => none
  composeAt := fun _ => none

/-- A world where only the environment variable `POSTGRES_PASSWORD=abc` is
set (the scenario of spec §8). -/
def c7WitWorld : SecretsWorld where
  vault := fun _ _ => none
  envVar := fun n => if n == "POSTGRES_PASSWORD" then some "abc" else none
  fileAt := fun _ => none
  composeAt := fun _ => none

/-! ### PostgresClient query primitives (src/agents/_core/_db.py)

`PostgresClient.fetch` (lines 122-147) — and its siblings `execute`,
`fetchrow`, `fetchval`, which have the identical shape — raises
`RuntimeError` when no pool exists, otherwise runs the query once; on
`TooManyConnectionsError` it sleeps one second and re-raises, and on every
other exception it logs and re-raises.  There is no retry loop in the
client: the oracle `outcomeAt n` gives what the `n`-th query attempt would
return, and the embedding records how many attempts were consumed. -/

/-- What one execution of the query against the pool would produce. -/
inductive QueryOutcome where
  | ok (rows : List String)
  | tooMany
  | failed
  deriving DecidableEq

/-- Errors `fetch` can raise to its caller. -/
inductive DbErr where
  | notConnected
  | tooManyConnections
  | otherError
  deriving DecidableEq

/-- Value returned to the caller of `fetch`: rows, or a raised error. -/
inductive DbResult where
  | ok (rows : List String)
  | err (e : DbErr)
  deriving DecidableEq

/-- Result of one `fetch` call: the value or error, the number of backoff
sleeps performed, and the number of query attempts consumed. -/
structure FetchOut where
  result : DbResult
  sleeps : Nat
  attempts : Nat
  deriving DecidableEq

/-- `PostgresClient.fetch` (lines 122-147). -/
def pgFetch (connected : Bool) (outcomeAt : Nat → QueryOutcome) : FetchOut :=
  if connected = false then ⟨.err .notConnected, 0, 0⟩
  else
    match outcomeAt 0 with
    | .ok rows => ⟨.ok rows, 0, 1⟩
    | .tooMany => ⟨.err .tooManyConnections, 1, 1⟩
    | .failed => ⟨.err .otherError, 0, 1⟩

/-- The attempt oracle of the C1 scenario: attempt 1 raises "too many
connections", attempt 2 would succeed. -/
def c1Outcomes : Nat → QueryOutcome :=
  fun n => if n == 0 then .tooMany else .ok ["row"]

/-! ### DedupGuard (src/agents/fetcher/main.py)

`FetcherAgent.__init__` creates `self.processed_urls: set[str] = set()`
(line 91); `handle_article_fetch` tests membership and inserts (lines
216-219).  No statement in the source ever removes from the set.  The set
is embedded as a list of keys with membership as `seen` and insertion as
`mark`. -/

/-- `url in self.processed_urls`. -/
def dedupSeen (g : List String) (k : String) : Bool := g.contains k

/-- `self.processed_urls.add(url)`. -/
def dedupMark (g : List String) (k : String) : List String := k :: g

/-- A whole run's worth of `mark` calls applied in order. -/
def dedupMarkAll (g : List String) (ops : List String) : List String :=
  ops.foldl dedupMark g

/-! ### Stream descriptors and reconciliation (C2, C4, C5, C8)

The broker holds at most one stream relevant to this system (named
`ai-radar` everywhere in the source).  A stream has a configuration and a
list of durably stored message payloads; the sequence number of a stored
payload is its index plus one. -/

/-- JetStream retention policies used by the source. -/
inductive Retention where
  | limits
  | workQueue
  | interest
  deriving DecidableEq

/-- JetStream storage classes. -/
inductive Storage where
  | file
  | memory
  deriving DecidableEq

/-- A stream configuration (the fields the source sets). -/
structure StreamCfg where
  name : String
  subjects : List String
  retention : Retention
  storage : Storage
  maxMsgs : Option Nat
  numReplicas : Option Nat
  deriving DecidableEq

/-- A live stream: configuration plus durably stored payloads. -/
structure StreamState where
  cfg : StreamCfg
  msgs : List String
  deriving DecidableEq

/-- Broker-side state: the (single) stream, or none. -/
structure Broker where
  stream : Option StreamState
  deriving DecidableEq

/-- The stream configuration `NatsClient.connect` creates
(src/agents/_core/_rpc.py:68-73).  The `add_stream` call passes no
retention policy, so the server default `limits` applies — not
`work_queue`. -/
def defaultStreamCfg : StreamCfg where
  name := "ai-radar"
  subjects := ["ai-radar.>"]
  retention := .limits
  storage := .file
  maxMsgs := some 100000
  numReplicas := none

/-- The desired stream configuration of `FetcherAgent.setup`
(src/agents/fetcher/main.py:377-386), with the default environment
(`NATS_STREAM_NAME` = `NATS_SUBJECT_PREFIX` = `ai-radar`). -/
def desiredStreamCfg : StreamCfg where
  name := "ai-radar"
  subjects := ["ai-radar.>"]
  retention := .workQueue
  storage := .file
  maxMsgs := none
  numReplicas := some 1

/-- Broker API operations performed by stream reconciliation. -/
inductive StreamOp where
  | infoQ     -- `js.stream_info`
  | del       -- `js.delete_stream`
  | create    -- `js.add_stream`
  | update    -- `js.update_stream`
  deriving DecidableEq

/-- Result of one reconciliation run: whether it aborted with a JetStream
API error, the broker afterwards, and the operations performed in order. -/
structure ReconcileOut where
  fatal : Bool
  broker : Broker
  ops : List StreamOp
  deriving DecidableEq

/-- The stream-reconciliation block of `FetcherAgent.setup`
(src/agents/fetcher/main.py:388-421).  `infoFault` injects a JetStream API
error other than "not found" while fetching stream info; in that case the
`except JSAPIError` clause (lines 419-421) re-raises and agent startup
aborts.  A "not found" answer creates the stream; a retention mismatch
deletes and recreates it (delete discards stored messages); matching
retention updates the other fields in place, keeping the messages. -/
def reconcile (desired : StreamCfg) (infoFault : Bool) (b : Broker) : ReconcileOut :=
  if infoFault then ⟨true, b, [.infoQ]⟩
  else
    match b.stream with
    | none => ⟨false, ⟨some ⟨desired, []⟩⟩, [.infoQ, .create]⟩
    | some st =>
      if st.cfg.retention ≠ desired.retention then
        ⟨false, ⟨some ⟨desired, []⟩⟩, [.infoQ, .del, .create]⟩
      else
        ⟨false, ⟨some ⟨desired, st.msgs⟩⟩, [.infoQ, .update]⟩

/-! ### NatsClient connection and publish (src/agents/_core/_rpc.py)

`NatsClient` holds a primary URL, a connection handle `nc`, and a JetStream
context `js`.  `connect` (lines 47-86) tries the candidate URL list in
order; on the first reachable URL it stores a *new* connection (there is no
already-connected guard), obtains a JetStream context, and attempts to
create the `ai-radar` stream with file storage and `max_msgs=100000` —
passing no retention policy, so the server default `limits` applies; a
failure of that `add_stream` (for instance because the stream exists) is
swallowed.  Connection handles are modelled as increasing ids allocated
from `nextHandle`, so "new connection" is visible as a changed id. -/

/-- `NatsClient` connection state. -/
structure NatsState where
  url : String
  nc : Option Nat
  js : Bool
  nextHandle : Nat
  deriving DecidableEq

/-- The fallback URL list of `NatsClient.__init__` (lines 31-38). -/
def fallbackUrls : List String :=
  ["nats://nats:4222", "nats://localhost:4222", "nats://host.docker.internal:4222"]

/-- Candidate URLs in order (lines 40-45): the primary first, then the
fallbacks with the primary removed (the fallback list has no duplicates,
so removing the first occurrence equals filtering it out). -/
def candidateUrls (url : String) : List String :=
  url :: fallbackUrls.filter (fun u => u != url)

/-- The `add_stream` attempt inside `connect` (lines 66-75): create the
default stream if absent; any error is caught and only logged. -/
def ensureDefaultStream (b : Broker) : Broker :=
  match b.stream with
  | some _ => b
  | none => ⟨some ⟨defaultStreamCfg, []⟩⟩

/-- Result of one `connect` call. -/
structure ConnectOut where
  ns : NatsState
  broker : Broker
  ok : Bool
  tried : Nat
  deriving DecidableEq

/-- URL loop of `connect` (lines 53-86). -/
def natsConnectGo (reachable : String → Bool) (s : NatsState) (b : Broker) :
    List String → Nat → ConnectOut
  | [], tried => ⟨s, b, false, tried⟩
  | u :: rest, tried =>
    if reachable u then
      ⟨{ s with nc := some s.nextHandle, js := true, nextHandle := s.nextHandle + 1 },
       ensureDefaultStream b, true, tried + 1⟩
    else natsConnectGo reachable s b rest (tried + 1)

/-- `NatsClient.connect` (lines 47-86). -/
def natsConnect (reachable : String → Bool) (s : NatsState) (b : Broker) : ConnectOut :=
  natsConnectGo reachable s b (candidateUrls s.url) 0

/-- NATS token-wise subject matching: `>` matches one or more trailing
tokens, `*` matches exactly one token. -/
def subjTokensMatch : List String → List String → Bool
  | [">"], rest => !rest.isEmpty
  | [], [] => true
  | p :: ps, t :: ts => (p == "*" || p == t) && subjTokensMatch ps ts
  | _, _ => false

/-- Subject-filter matching on dotted subjects. -/
def subjectMatch (pat subj : String) : Bool :=
  subjTokensMatch (strSplit pat '.') (strSplit subj '.')

/-- `js.publish`: durably store the payload on the stream whose subject
filter matches, returning the new broker and the broker-assigned sequence
number; `none` models the raised error when no stream accepts the
subject. -/
def jsPublish (b : Broker) (subject payload : String) : Option (Broker × Nat) :=
  match b.stream with
  | some st =>
    if st.cfg.subjects.any (fun p => subjectMatch p subject) then
      some (⟨some ⟨st.cfg, st.msgs ++ [payload]⟩⟩, st.msgs.length + 1)
    else none
  | none => none

/-- Result of one `NatsClient.publish` call over the broker model. -/
structure PublishOut where
  ns : NatsState
  broker : Broker
  ack : Option Nat
  attempts : Nat
  sleeps : Nat
  deriving DecidableEq

/-- The retry loop of `NatsClient.publish` (lines 94-129) run over the
broker model, with fuel counting down from `max_retries = 5`: on each
attempt, if no JetStream context exists, the last attempt raises
`RuntimeError` outright and earlier attempts first call `connect` (a
failure sleeps and continues, a success falls through to the send in the
same attempt); a failed send sleeps and continues except on the last
attempt, which re-raises. -/
def natsPublishAux (reachable : String → Bool) (subject payload : String) :
    Nat → NatsState → Broker → Nat → Nat → PublishOut
  | 0, s, b, att, sl => ⟨s, b, none, att, sl⟩
  | r + 1, s, b, att, sl =>
    if s.js = false then
      if r == 0 then ⟨s, b, none, att + 1, sl⟩
      else
        let c := natsConnect reachable s b
        if c.ok then
          match jsPublish c.broker subject payload with
          | some (b2, seq) => ⟨c.ns, b2, some seq, att + 1, sl⟩
          | none =>
            natsPublishAux reachable subject payload r c.ns c.broker (att + 1) (sl + 1)
        else natsPublishAux reachable subject payload r c.ns c.broker (att + 1) (sl + 1)
    else
      match jsPublish b subject payload with
      | some (b2, seq) => ⟨s, b2, some seq, att + 1, sl⟩
      | none =>
        if r == 0 then ⟨s, b, none, att + 1, sl⟩
        else natsPublishAux reachable subject payload r s b (att + 1) (sl + 1)

/-- `NatsClient.publish` (lines 94-129). -/
def natsPublish (reachable : String → Bool) (subject payload : String)
    (s : NatsState) (b : Broker) : PublishOut :=
  natsPublishAux reachable subject payload 5 s b 0 0

/-- Fresh client state for the C2 scenario (primary URL as configured by
default). -/
def c2State0 : NatsState := ⟨"nats://nats:4222", none, false, 0⟩

/-- The serialized payload of the C2 scenario. -/
def c2Payload : String := "\x7b\"url\": \"https://x/a\", \"name\": \"Src\"\x7d"

/-- The C2 scenario run: publish to `ai-radar.tasks.rss_fetch` from a
disconnected client against a broker with no stream, broker reachable. -/
def c2Run : PublishOut :=
  natsPublish (fun _ => true) "ai-radar.tasks.rss_fetch" c2Payload c2State0 ⟨none⟩

/-! ### Abstract retry loop of `NatsClient.publish` (C6)

For the retry-budget claim the per-attempt outcomes of `connect` and of the
JetStream send are abstracted into oracles indexed by the attempt number
(1-based): `connOk a` — the reconnect during attempt `a` succeeds; `pubOk a`
— the send during attempt `a` succeeds.  The control flow is exactly that
of lines 94-129, as in `natsPublishAux`. -/

/-- Result of the abstract retry loop: success flag, number of the attempt
the loop ended on, sleeps performed. -/
structure RetryOut where
  ok : Bool
  attempts : Nat
  sleeps : Nat
  deriving DecidableEq

/-- The retry loop with per-attempt outcome oracles; `r + 1` is the number
of attempts remaining, `a` the current 1-based attempt number. -/
def publishRetryAux (connOk pubOk : Nat → Bool) : Nat → Nat → Bool → Nat → RetryOut
  | 0, _, _, sl => ⟨false, 0, sl⟩
  | r + 1, a, js, sl =>
    if js = false then
      if r == 0 then ⟨false, a, sl⟩
      else if connOk a then
        if pubOk a then ⟨true, a, sl⟩
        else publishRetryAux connOk pubOk r (a + 1) true (sl + 1)
      else publishRetryAux connOk pubOk r (a + 1) false (sl + 1)
    else
      if pubOk a then ⟨true, a, sl⟩
      else if r == 0 then ⟨false, a, sl⟩
      else publishRetryAux connOk pubOk r (a + 1) true (sl + 1)

/-- `NatsClient.publish` retry loop: `max_retries = 5`, starting at
attempt 1 with the given initial connection state. -/
def publishRetry (connOk pubOk : Nat → Bool) (js0 : Bool) : RetryOut :=
  publishRetryAux connOk pubOk 5 1 js0 0

/-- The broker "becomes reachable at attempt `k` and stays reachable". -/
def reachFrom (k : Nat) : Nat → Bool := fun a => decide (k ≤ a)

/-! ### FetcherAgent setup subscription phase (C10)

The names of the methods defined on `FetcherAgent`
(src/agents/fetcher/main.py) together with those inherited from
`BaseAgent` (src/agents/_core/_base.py); `handle_rss_fetch` is not among
them, so evaluating the callback argument `self.handle_rss_fetch` at line
443 raises `AttributeError` before `js.subscribe` is called. -/

/-- Methods resolvable on a `FetcherAgent` instance. -/
def fetcherMethodNames : List String :=
  ["__init__", "setup_minio", "process_feed_entry", "handle_article_fetch",
   "setup", "teardown", "run", "increment_message_count", "increment_error_count"]

/-- Python attribute resolution on a `FetcherAgent` instance (methods
only; the data attributes play no role here). -/
def resolveAttr (n : String) : Option String :=
  if fetcherMethodNames.contains n then some n else none

/-- The Python exception the phase can raise. -/
inductive PyErr where
  | attributeErr (attr : String)
  deriving DecidableEq

/-- Broker consumers, active subscriptions, and readiness flag. -/
structure AgentWorld where
  consumers : List String
  subs : List String
  ready : Bool
  deriving DecidableEq

/-- Result of the subscription phase. -/
structure SubPhaseOut where
  err : Option PyErr
  world : AgentWorld
  deriving DecidableEq

/-- The consumer/subscription phase of `FetcherAgent.setup` (lines
423-476), entered after stream reconciliation succeeded: delete the
durable consumer `fetcher-rss` ("not found" tolerated, lines 426-433),
then subscribe with callback `self.handle_rss_fetch` (lines 441-447) —
evaluating that attribute raises `AttributeError` when the method does not
resolve.  The remainder (delete and resubscribe `fetcher-article` with
`self.handle_article_fetch`, lines 450-474) runs only if the first
subscribe was reached and succeeded. -/
def subscriptionPhase (w : AgentWorld) : SubPhaseOut :=
  let w1 : AgentWorld :=
    { w with consumers := w.consumers.filter (fun c => c != "fetcher-rss") }
  match resolveAttr "handle_rss_fetch" with
  | none => ⟨some (.attributeErr "handle_rss_fetch"), w1⟩
  | some _ =>
    let w2 : AgentWorld :=
      { w1 with consumers := "fetcher-rss" :: w1.consumers,
                subs := "ai-radar.tasks.rss_fetch" :: w1.subs }
    let w3 : AgentWorld :=
      { w2 with consumers := w2.consumers.filter (fun c => c != "fetcher-article") }
    match resolveAttr "handle_article_fetch" with
    | none => ⟨some (.attributeErr "handle_article_fetch"), w3⟩
    | some _ =>
      ⟨none, { w3 with consumers := "fetcher-article" :: w3.consumers,
                       subs := "ai-radar.tasks.article_fetch" :: w3.subs }⟩

/-- `FetcherAgent.run` (lines 488-493): `setup` raising prevents
`super().run()` — and with it the only code path that sets the readiness
flag (`BaseAgent.setup`, src/agents/_core/_base.py:118-119) — from ever
running. -/
def fetcherRun (w : AgentWorld) : SubPhaseOut :=
  match subscriptionPhase w with
  | ⟨some e, w2⟩ => ⟨some e, w2⟩
  | ⟨none, w2⟩ => ⟨none, { w2 with ready := true }⟩

/-! ### Router handler acknowledgement discipline (C3)

`FetcherAgent.handle_article_fetch` (src/agents/fetcher/main.py:209-319)
and `RankerAgent.process_rank` (src/agents/ranker/main.py:239-324) are the
delivery callbacks.  Each run is embedded as the trace of observable events
it performs; exceptions raised by external calls are injected through the
boolean outcome flags.  In `handle_article_fetch`, note that the statements
after the `try`/`except` block (lines 286-319) execute both after a normal
completion of the `try` body and after the first `except` handler, and
immediately raise `NameError` at line 287 because the name `html` is never
bound — so the trailing second `ack` at line 319 is unreachable, and a
`NameError` escapes the handler after the single `ack` on every path that
reaches line 286. -/

/-- Observable events of one handler invocation. -/
inductive HEv where
  | ack          -- `await msg.ack()`
  | errMetric    -- `await self.increment_error_count()`
  | msgMetric    -- `await self.increment_message_count()`
  | dbFetch      -- existing-score lookup in `process_rank`
  | aiScore      -- AI scoring call in `process_rank`
  | dbUpdate     -- score update in `process_rank`
  | sharePub     -- share-task publish in `process_rank`
  | raised       -- an exception escaped the handler to the transport
  deriving DecidableEq

/-- Number of acknowledgements in a trace. -/
def ackCount (t : List HEv) : Nat := t.count .ack

/-- One run of `handle_article_fetch` (lines 209-319).  `parseOk` is the
outcome of decoding the message and reading `data["url"]`; `bodyOk` is the
outcome of the fetch/extract/store/publish body (lines 221-270).  Returns
the event trace and the dedup set afterwards. -/
def articleFetchTrace (seen0 : List String) (url : String)
    (parseOk bodyOk : Bool) : List HEv × List String :=
  if parseOk = false then
    -- except (275-280): log, error metric, ack; then fall through to line
    -- 286 where the unbound name `html` raises NameError out of the handler
    ([.errMetric, .ack, .raised], seen0)
  else if dedupSeen seen0 url then
    ([.ack], seen0)                      -- lines 216-218: ack and return
  else
    let seen1 := dedupMark seen0 url     -- line 219
    if bodyOk then
      -- success: ack at 272, then fall-through NameError at 287
      ([.msgMetric, .ack, .raised], seen1)
    else
      -- body raised: except (275-280) acks, then NameError at 287
      ([.msgMetric, .errMetric, .ack, .raised], seen1)

/-- One run of `process_rank` (lines 239-324).  `parseOk`: decoding and the
required keys; `dbCheckOk`: the existing-score lookup (its failure is acked
and returned at 262-265); `alreadyScored`: the early-exit at 258-261;
`updateOk`: the score update (failure acked and returned at 292-295);
`shareHigh`: the score reached the sharing threshold; `shareOk`: the share
publish (its failure reaches the outer except at 321-324, which acks).
AI-scoring and Slack failures are swallowed inline and do not change the
trace shape beyond their events. -/
def rankTrace (parseOk dbCheckOk alreadyScored updateOk shareHigh shareOk : Bool) :
    List HEv :=
  if parseOk = false then [.ack]                 -- outer except: ack, return
  else if dbCheckOk = false then [.dbFetch, .ack]
  else if alreadyScored then [.dbFetch, .ack]
  else if updateOk = false then [.dbFetch, .aiScore, .dbUpdate, .ack]
  else if shareHigh && !shareOk then
    [.dbFetch, .aiScore, .dbUpdate, .sharePub, .ack]  -- outer except acks
  else if shareHigh then
    [.dbFetch, .aiScore, .dbUpdate, .sharePub, .ack]  -- ack at 318
  else [.dbFetch, .aiScore, .dbUpdate, .ack]

end AIRadar

namespace AIRadar

/-- C7 counterexample: for the name `MINIO_ENDPOINT` the Vault tier is
skipped even though its route exists and Vault holds a value, so `get_secret`
returns the environment value instead of the higher-priority Vault value —
the claimed fixed tier order does not hold for this name. -/
theorem c7_counterexample :
    (getSecret c7World [] "MINIO_ENDPOINT" none).value = some "http://env-minio:9000" ∧
    vaultRoute "MINIO_ENDPOINT" = some ("minio", "endpoint") ∧
    c7World.vault "minio" "endpoint" = some "http://vault-minio:9000" ∧
    "http://env-minio:9000" ≠ "http://vault-minio:9000" := by
  refine ⟨by decide, by decide, by decide, by decide⟩

/-- C7 (amended): `get_secret` returns the value of the highest-priority
successful tier in the order cache, Vault (skipped for the name
`MINIO_ENDPOINT`), environment variable, `<name>_FILE` indirection, mounted
compose-secret file; and whenever some tier succeeds, a second call with the
first call's cache returns the identical value with zero external probes. -/
theorem c7_order_and_cache (w : SecretsWorld) (cache : List (String × String))
    (name : String) (dflt : Option String)
    (h : (lookupCache cache name).isSome ∨ (firstSuccess (tierValues w name)).isSome) :
    ((getSecret w cache name dflt).value =
      (match lookupCache cache name with
       | some v => some v
       | none => firstSuccess (tierValues w name))) ∧
    (getSecret w ((getSecret w cache name dflt).cache) name dflt
      = ⟨(getSecret w cache name dflt).value, (getSecret w cache name dflt).cache, 0⟩) := by
  have hself : ∀ v : String, lookupCache ((name, v) :: cache) name = some v := by
    intro v
    simp [lookupCache, List.find?]
  cases hc : lookupCache cache name with
  | some v =>
    exact ⟨by simp [getSecret, hc], by simp [getSecret, hc]⟩
  | none =>
    cases hv : vaultTier w name with
    | some v =>
      exact ⟨by simp [getSecret, hc, hv, tierValues, firstSuccess],
        by simp [getSecret, hc, hv, hself]⟩
    | none =>
      cases he : w.envVar name with
      | some v =>
        exact ⟨by simp [getSecret, hc, hv, he, tierValues, firstSuccess],
          by simp [getSecret, hc, hv, he, hself]⟩
      | none =>
        cases hf : envFileTier w name with
        | some v =>
          exact ⟨by simp [getSecret, hc, hv, he, hf, tierValues, firstSuccess],
            by simp [getSecret, hc, hv, he, hf, hself]⟩
        | none =>
          cases hm : w.composeAt (strLower name) with
          | some v =>
            exact ⟨by simp [getSecret, hc, hv, he, hf, hm, tierValues, firstSuccess],
              by simp [getSecret, hc, hv, he, hf, hm, hself]⟩
          | none =>
            exfalso
            simp [hc, tierValues, firstSuccess, hv, he, hf, hm] at h

/-- C1 counterexample: with "too many connections" on attempt 1 and success
available on attempt 2, `PostgresClient.fetch` does not return the
successful result — it consumes only one attempt, sleeps once, and
propagates the too-many-connections error to the caller. -/
theorem c1_counterexample :
    pgFetch true c1Outcomes = ⟨.err .tooManyConnections, 1, 1⟩ ∧
    c1Outcomes 1 = .ok ["row"] ∧
    (pgFetch true c1Outcomes).result ≠ .ok ["row"] := by
  refine ⟨by decide, by decide, by decide⟩

/-- C1 (amended): `fetch` performs exactly one query attempt; on a
too-many-connections error it sleeps one backoff delay and then propagates
the error regardless of whether a further attempt would have succeeded, and
every other error propagates immediately with no backoff — no retry happens
inside the client. -/
theorem c1_single_attempt (outcomeAt : Nat → QueryOutcome)
    (h : outcomeAt 0 = .tooMany) :
    pgFetch true outcomeAt = ⟨.err .tooManyConnections, 1, 1⟩ ∧
    (∀ f : Nat → QueryOutcome, (pgFetch true f).attempts ≤ 1) ∧
    (∀ f : Nat → QueryOutcome, f 0 = .failed →
      pgFetch true f = ⟨.err .otherError, 0, 1⟩) := by
  refine ⟨?_, ?_, ?_⟩
  · simp [pgFetch, h]
  · intro f
    unfold pgFetch
    cases hf : f 0 <;> simp [hf]
  · intro f hf
    simp [pgFetch, hf]

/-- C1 witness: the amended theorem applied to the concrete scenario
oracle. -/
theorem c1_single_attempt_witness :
    (pgFetch true c1Outcomes = ⟨.err .tooManyConnections, 1, 1⟩ ∧
    (∀ f : Nat → QueryOutcome, (pgFetch true f).attempts ≤ 1) ∧
    (∀ f : Nat → QueryOutcome, f 0 = .failed →
      pgFetch true f = ⟨.err .otherError, 0, 1⟩)) ∧
    c1Outcomes 0 = .tooMany :=
  ⟨c1_single_attempt c1Outcomes (by decide), by decide⟩

/-- Membership after a sequence of `mark` calls: a key is in the guard
iff it was marked by the sequence or was already in the guard. -/
theorem dedupMarkAll_mem (ops : List String) :
    ∀ (g : List String) (k : String), k ∈ dedupMarkAll g ops ↔ (k ∈ ops ∨ k ∈ g) := by
  induction ops with
  | nil => intro g k; simp [dedupMarkAll]
  | cons a rest ih =>
    intro g k
    have hstep : dedupMarkAll g (a :: rest) = dedupMarkAll (dedupMark g a) rest := rfl
    rw [hstep, ih]
    simp [dedupMark]
    tauto

/-- `seen` is membership. -/
theorem dedupSeen_iff (g : List String) (k : String) :
    dedupSeen g k = true ↔ k ∈ g := by
  simp [dedupSeen]

/-- C4: reconciliation is idempotent.  Against a stream whose retention
already matches the desired one, a run performs no delete; and after any
first run from any broker state, the second run with the unchanged
descriptor performs zero delete operations. -/
theorem c4_reconcile_idempotent (desired : StreamCfg) (b : Broker) (st : StreamState)
    (hst : b.stream = some st) (hret : st.cfg.retention = desired.retention) :
    (reconcile desired false b).ops.count .del = 0 ∧
    (∀ b2 : Broker,
      (reconcile desired false (reconcile desired false b2).broker).ops.count .del = 0) := by
  constructor
  · simp [reconcile, hst, hret, List.count_cons]
  · intro b2
    cases h2 : b2.stream with
    | none => simp [reconcile, h2, List.count_cons]
    | some st2 =>
      by_cases hr : st2.cfg.retention = desired.retention <;>
        simp [reconcile, h2, hr, List.count_cons]

/-- C4 witness: an already-correct work-queue stream; both runs perform
zero deletes. -/
theorem c4_reconcile_idempotent_witness :
    (reconcile desiredStreamCfg false ⟨some ⟨desiredStreamCfg, []⟩⟩).ops.count .del = 0 ∧
    (∀ b2 : Broker,
      (reconcile desiredStreamCfg false
        (reconcile desiredStreamCfg false b2).broker).ops.count .del = 0) :=
  c4_reconcile_idempotent desiredStreamCfg ⟨some ⟨desiredStreamCfg, []⟩⟩
    ⟨desiredStreamCfg, []⟩ rfl rfl

/-- C5: a retention mismatch causes exactly one delete followed by exactly
one create with the desired descriptor, and a JetStream API error other
than "not found" while fetching stream info is fatal and aborts startup
after the info query alone. -/
theorem c5_retention_mismatch_and_fatal (desired : StreamCfg) (b : Broker)
    (st : StreamState) (hst : b.stream = some st)
    (hret : st.cfg.retention ≠ desired.retention) :
    (reconcile desired false b).ops = [.infoQ, .del, .create] ∧
    (reconcile desired false b).broker = ⟨some ⟨desired, []⟩⟩ ∧
    (reconcile desired false b).fatal = false ∧
    (∀ b2 : Broker,
      (reconcile desired true b2).fatal = true ∧
      (reconcile desired true b2).ops = [.infoQ]) := by
  refine ⟨?_, ?_, ?_, ?_⟩
  · simp [reconcile, hst, hret]
  · simp [reconcile, hst, hret]
  · simp [reconcile, hst, hret]
  · intro b2; exact ⟨by simp [reconcile], by simp [reconcile]⟩

/-- C5 witness: the stream created by `NatsClient.connect` (limits
retention) reconciled against the fetcher's desired work-queue descriptor:
one delete, one create, and the injected info fault is fatal. -/
theorem c5_retention_mismatch_and_fatal_witness :
    (reconcile desiredStreamCfg false ⟨some ⟨defaultStreamCfg, []⟩⟩).ops
        = [.infoQ, .del, .create] ∧
    (reconcile desiredStreamCfg false ⟨some ⟨defaultStreamCfg, []⟩⟩).broker
        = ⟨some ⟨desiredStreamCfg, []⟩⟩ ∧
    (reconcile desiredStreamCfg false ⟨some ⟨defaultStreamCfg, []⟩⟩).fatal = false ∧
    (∀ b2 : Broker,
      (reconcile desiredStreamCfg true b2).fatal = true ∧
      (reconcile desiredStreamCfg true b2).ops = [.infoQ]) :=
  c5_retention_mismatch_and_fatal desiredStreamCfg ⟨some ⟨defaultStreamCfg, []⟩⟩
    ⟨defaultStreamCfg, []⟩ rfl (by decide)

/-- C2 counterexample: publishing the scenario payload to
`ai-radar.tasks.rss_fetch` with the stream absent does create the stream
and store the message with sequence 1 — but with the server-default
`limits` retention, not the claimed work-queue retention, because the
`add_stream` call inside `NatsClient.connect` passes no retention
policy. -/
theorem c2_counterexample :
    c2Run.ack = some 1 ∧
    (c2Run.broker.stream.map (fun st => st.cfg.retention)) = some .limits ∧
    Retention.limits ≠ Retention.workQueue := by
  refine ⟨by decide, by decide, by decide⟩

/-- C2 (amended): in the scenario, the stream is created with the default
configuration of `NatsClient.connect` — `limits` retention, file storage,
subjects `ai-radar.>`, `max_msgs` 100000 — and the message is durably
stored with sequence number 1, on the first publish attempt. -/
theorem c2_stream_created_with_limits :
    c2Run.broker.stream = some ⟨defaultStreamCfg, [c2Payload]⟩ ∧
    defaultStreamCfg.retention = .limits ∧
    c2Run.ack = some 1 ∧
    c2Run.attempts = 1 := by
  refine ⟨by decide, by decide, by decide, by decide⟩

/-- C6 counterexample: starting disconnected, with the broker becoming
reachable exactly at attempt 5 — inside the retry budget of 5 — `publish`
still fails: the last attempt raises `RuntimeError` without reconnecting,
after 5 attempts and 4 sleeps. -/
theorem c6_counterexample :
    publishRetry (reachFrom 5) (reachFrom 5) false = ⟨false, 5, 4⟩ ∧
    reachFrom 5 5 = true := by
  refine ⟨by decide, by decide⟩

/-- C6 (amended): with the broker unreachable before attempt `k` and
reachable from attempt `k` on, `publish` returns success when already
connected and `k ≤ 5`, and when disconnected only for `k ≤ 4` (the final
attempt never reconnects); if the broker is unreachable for the entire
budget, `publish` raises after exactly 5 attempts. -/
theorem c6_bounded_retry (k : Nat) (js0 : Bool) (hk : 1 ≤ k) :
    (js0 = true → k ≤ 5 → (publishRetry (reachFrom k) (reachFrom k) js0).ok = true) ∧
    (js0 = false → k ≤ 4 → (publishRetry (reachFrom k) (reachFrom k) js0).ok = true) ∧
    (6 ≤ k → (publishRetry (reachFrom k) (reachFrom k) js0).ok = false ∧
      (publishRetry (reachFrom k) (reachFrom k) js0).attempts = 5) := by
  refine ⟨?_, ?_, ?_⟩
  · rintro rfl h5
    interval_cases k <;> decide
  · rintro rfl h4
    interval_cases k <;> decide
  · intro h6
    have h1 : reachFrom k 1 = false := by simp [reachFrom]; omega
    have h2 : reachFrom k 2 = false := by simp [reachFrom]; omega
    have h3 : reachFrom k 3 = false := by simp [reachFrom]; omega
    have h4 : reachFrom k 4 = false := by simp [reachFrom]; omega
    have h5 : reachFrom k 5 = false := by simp [reachFrom]; omega
    cases js0 <;>
      exact ⟨by simp [publishRetry, publishRetryAux, h1, h2, h3, h4, h5],
             by simp [publishRetry, publishRetryAux, h1, h2, h3, h4, h5]⟩

/-- C6 witness: reachable from attempt 2: a disconnected publisher
succeeds within the budget. -/
theorem c6_bounded_retry_witness :
    ((false = true → 2 ≤ 5 →
      (publishRetry (reachFrom 2) (reachFrom 2) false).ok = true) ∧
    (false = false → 2 ≤ 4 →
      (publishRetry (reachFrom 2) (reachFrom 2) false).ok = true) ∧
    (6 ≤ 2 → (publishRetry (reachFrom 2) (reachFrom 2) false).ok = false ∧
      (publishRetry (reachFrom 2) (reachFrom 2) false).attempts = 5)) ∧
    (publishRetry (reachFrom 2) (reachFrom 2) false).ok = true :=
  ⟨c6_bounded_retry 2 false (by decide), by decide⟩

/-- C8 counterexample: calling `connect` on an already-connected client
(handle 0) with the broker reachable is not a no-op: it performs a fresh
connection attempt and replaces the connection handle. -/
theorem c8_counterexample :
    (natsConnect (fun _ => true) ⟨"nats://nats:4222", some 0, true, 1⟩ ⟨none⟩).ns.nc
      = some 1 ∧
    (some 1 : Option Nat) ≠ some 0 ∧
    (natsConnect (fun _ => true) ⟨"nats://nats:4222", some 0, true, 1⟩ ⟨none⟩).tried = 1 := by
  refine ⟨by decide, by decide, by decide⟩

/-- C8 (amended): `connect` has no already-connected guard: whenever the
primary URL is reachable it establishes a new connection — replacing the
existing handle — even if the client is already connected. -/
theorem c8_connect_not_reentrant (reachable : String → Bool) (s : NatsState)
    (b : Broker) (h0 : Nat) (hre : reachable s.url = true) (hnc : s.nc = some h0)
    (hfresh : h0 < s.nextHandle) :
    (natsConnect reachable s b).ok = true ∧
    (natsConnect reachable s b).ns.nc = some s.nextHandle ∧
    (natsConnect reachable s b).ns.nc ≠ s.nc ∧
    (natsConnect reachable s b).tried = 1 := by
  refine ⟨?_, ?_, ?_, ?_⟩ <;>
    simp [natsConnect, candidateUrls, natsConnectGo, hre, hnc]
  omega

/-- C8 witness: the concrete already-connected state. -/
theorem c8_connect_not_reentrant_witness :
    (natsConnect (fun _ => true) ⟨"nats://localhost:4222", some 3, true, 4⟩ ⟨none⟩).ok
      = true ∧
    (natsConnect (fun _ => true) ⟨"nats://localhost:4222", some 3, true, 4⟩ ⟨none⟩).ns.nc
      = some (4 : Nat) ∧
    (natsConnect (fun _ => true) ⟨"nats://localhost:4222", some 3, true, 4⟩ ⟨none⟩).ns.nc
      ≠ (⟨"nats://localhost:4222", some 3, true, 4⟩ : NatsState).nc ∧
    (natsConnect (fun _ => true) ⟨"nats://localhost:4222", some 3, true, 4⟩ ⟨none⟩).tried
      = 1 :=
  c8_connect_not_reentrant (fun _ => true) ⟨"nats://localhost:4222", some 3, true, 4⟩
    ⟨none⟩ 3 rfl rfl (by decide)

/-- C10: every run of the subscription phase of `FetcherAgent.setup`
raises `AttributeError` at the RSS subscribe call, because
`handle_rss_fetch` is defined neither on `FetcherAgent` nor on
`BaseAgent`; the `fetcher-rss` durable consumer deleted just before is
never recreated, the `article_fetch` subscription is never made, and the
agent never becomes ready. -/
theorem c10_setup_attribute_error (w : AgentWorld) (hready : w.ready = false) :
    resolveAttr "handle_rss_fetch" = none ∧
    (subscriptionPhase w).err = some (.attributeErr "handle_rss_fetch") ∧
    (subscriptionPhase w).world.consumers.contains "fetcher-rss" = false ∧
    (subscriptionPhase w).world.subs = w.subs ∧
    (fetcherRun w).world.ready = false := by
  have hres : resolveAttr "handle_rss_fetch" = none := by decide
  refine ⟨hres, ?_, ?_, ?_, ?_⟩
  · simp [subscriptionPhase, hres]
  · rw [Bool.eq_false_iff]
    intro h
    have hm : "fetcher-rss" ∈ (subscriptionPhase w).world.consumers := by
      simp [List.elem_iff] at h
      exact h
    rw [show (subscriptionPhase w).world.consumers
          = w.consumers.filter (fun c => c != "fetcher-rss") by
        simp [subscriptionPhase, hres]] at hm
    have := List.mem_filter.mp hm
    simp at this
  · simp [subscriptionPhase, hres]
  · simp [fetcherRun, subscriptionPhase, hres, hready]

/-- C10 witness: a broker that already has the `fetcher-rss` consumer and
an agent not yet ready. -/
theorem c10_setup_attribute_error_witness :
    resolveAttr "handle_rss_fetch" = none ∧
    (subscriptionPhase ⟨["fetcher-rss"], [], false⟩).err
      = some (.attributeErr "handle_rss_fetch") ∧
    (subscriptionPhase ⟨["fetcher-rss"], [], false⟩).world.consumers.contains
      "fetcher-rss" = false ∧
    (subscriptionPhase ⟨["fetcher-rss"], [], false⟩).world.subs
      = (⟨["fetcher-rss"], [], false⟩ : AgentWorld).subs ∧
    (fetcherRun ⟨["fetcher-rss"], [], false⟩).world.ready = false :=
  c10_setup_attribute_error ⟨["fetcher-rss"], [], false⟩ rfl

/-- C3: whenever the body of a delivery handler raises — in
`handle_article_fetch` a failure of decoding or of the fetch/store/publish
body, in `process_rank` a failure of decoding, of the existing-score check,
of the score update, or of the share publish — the exception is caught and
the message is acknowledged exactly once, so the failing delivery is not
left unacknowledged and is not acknowledged twice. -/
theorem c3_handler_ack_exactly_once (seen0 : List String) (url : String)
    (parseOk bodyOk pOk dOk aS uOk sH sOk : Bool)
    (hArticle : parseOk = false ∨ bodyOk = false)
    (hRank : pOk = false ∨ dOk = false ∨ uOk = false ∨ (sH = true ∧ sOk = false)) :
    ackCount (articleFetchTrace seen0 url parseOk bodyOk).1 = 1 ∧
    ackCount (rankTrace pOk dOk aS uOk sH sOk) = 1 := by
  constructor
  · cases parseOk <;> cases bodyOk <;>
      cases hd : dedupSeen seen0 url <;>
      simp [articleFetchTrace, ackCount, hd, List.count_cons]
  · cases pOk <;> cases dOk <;> cases aS <;> cases uOk <;> cases sH <;> cases sOk <;>
      simp [rankTrace, ackCount, List.count_cons]

/-- C3 witness: a concrete run where both handler bodies raise; each trace
contains exactly one acknowledgement. -/
theorem c3_handler_ack_exactly_once_witness :
    ackCount (articleFetchTrace [] "https://x/a" true false).1 = 1 ∧
    ackCount (rankTrace true true false true true false) = 1 :=
  c3_handler_ack_exactly_once [] "https://x/a" true false true true false true true false
    (Or.inr rfl) (Or.inr (Or.inr (Or.inr ⟨rfl, rfl⟩)))

/-- C9: the dedup guard's membership test returns false for a key until
`mark` is called with that exact key — in particular after any sequence of
marks not containing the key — and once marked, the key remains seen after
any further sequence of marks; no operation removes a key. -/
theorem c9_dedup_guard (k : String) (ops later : List String) (g : List String)
    (hk : k ∉ ops) :
    dedupSeen [] k = false ∧
    dedupSeen (dedupMarkAll [] ops) k = false ∧
    dedupSeen (dedupMark g k) k = true ∧
    (dedupSeen g k = true → dedupSeen (dedupMarkAll g later) k = true) := by
  refine ⟨rfl, ?_, ?_, ?_⟩
  · have h := dedupMarkAll_mem ops [] k
    rw [Bool.eq_false_iff]
    intro hcontra
    rcases h.mp ((dedupSeen_iff _ _).mp hcontra) with h1 | h1
    · exact hk h1
    · simp at h1
  · exact (dedupSeen_iff _ _).mpr (by simp [dedupMark])
  · intro hg
    exact (dedupSeen_iff _ _).mpr
      ((dedupMarkAll_mem later g k).mpr (Or.inr ((dedupSeen_iff _ _).mp hg)))

/-- C9 witness: concrete key and mark sequences. -/
theorem c9_dedup_guard_witness :
    dedupSeen [] "https://x/a" = false ∧
    dedupSeen (dedupMarkAll [] ["https://x/b"]) "https://x/a" = false ∧
    dedupSeen (dedupMark ["https://x/b"] "https://x/a") "https://x/a" = true ∧
    (dedupSeen ["https://x/b"] "https://x/a" = true →
      dedupSeen (dedupMarkAll ["https://x/b"] ["https://x/c"]) "https://x/a" = true) :=
  c9_dedup_guard "https://x/a" ["https://x/b"] ["https://x/c"] ["https://x/b"]
    (by decide)

/-- C7 witness: in a world with only `POSTGRES_PASSWORD=abc` in the
environment, the theorem applies and the resolved value is `"abc"` (not the
default `"ai_pwd"`), cached for the second call. -/
theorem c7_order_and_cache_witness :
    (((getSecret c7WitWorld [] "POSTGRES_PASSWORD" (some "ai_pwd")).value =
      (match lookupCache [] "POSTGRES_PASSWORD" with
       | some v => some v
       | none => firstSuccess (tierValues c7WitWorld "POSTGRES_PASSWORD"))) ∧
    (getSecret c7WitWorld
        ((getSecret c7WitWorld [] "POSTGRES_PASSWORD" (some "ai_pwd")).cache)
        "POSTGRES_PASSWORD" (some "ai_pwd")
      = ⟨(getSecret c7WitWorld [] "POSTGRES_PASSWORD" (some "ai_pwd")).value,
         (getSecret c7WitWorld [] "POSTGRES_PASSWORD" (some "ai_pwd")).cache, 0⟩)) ∧
    (getSecret c7WitWorld [] "POSTGRES_PASSWORD" (some "ai_pwd")).value = some "abc" :=
  ⟨c7_order_and_cache c7WitWorld [] "POSTGRES_PASSWORD" (some "ai_pwd") (by decide),
   by decide⟩

end AIRadar
